import Mathlib

/-!
Verification of the download/progress core of the GoFileDownloader repository.

The development shallowly embeds the in-scope Python modules:

* `src/config.py` — the threshold table and buffer constants;
* `src/download_utils.py` — `get_chunk_size` and `save_file_with_progress`;
* `src/src/managers/progress_manager.py` — `ProgressManager` together with the
  relevant semantics of rich.progress tasks (completed / finished / visible);
* `src/src/managers/log_manager.py` — the `LoggerTable` circular row buffer;
* `src/src/managers/live_manager.py` — elapsed-time computation on stop.

Machine integers are modelled as `Int`/`Nat` (Python integers are unbounded),
byte strings as `List Nat`, and Python float quantities that only undergo
division and multiplication by exact small values as `Rat` (every concrete
value appearing in the theorems below is exactly representable as a binary
float, so the rational model agrees with Python's float arithmetic there).
-/

namespace GoFile

/-! ## Constants from src/config.py -/

/-- Constant `KB = 1024` from src/config.py. -/
def KB : Int := 1024

/-- Constant `MB = 1024 * KB` from src/config.py. -/
def MB : Int := 1024 * KB

/-- The `THRESHOLDS` table from src/config.py: pairs of
(file size threshold, chunk size used below that threshold). -/
def THRESHOLDS : List (Int × Int) :=
  [(1 * MB, 8 * KB),
   (10 * MB, 16 * KB),
   (50 * MB, 64 * KB),
   (100 * MB, 128 * KB),
   (250 * MB, 256 * KB)]

/-- Constant `LARGE_FILE_CHUNK_SIZE = 512 * KB` from src/config.py. -/
def LARGE_FILE_CHUNK_SIZE : Int := 512 * KB

/-- Constant `BUFFER_SIZE = 5` from src/src/config.py. -/
def BUFFER_SIZE : Nat := 5

/-! ## src/download_utils.py -/

/-- The scan loop of `get_chunk_size`: return the chunk size of the first
threshold entry whose bound exceeds the file size, else the fallback. -/
def chunkFromThresholds (file_size : Int) : List (Int × Int) → Int
  | [] => LARGE_FILE_CHUNK_SIZE
  | (threshold, chunk_size) :: rest =>
      if file_size < threshold then chunk_size
      else chunkFromThresholds file_size rest

/-- Embedding of `get_chunk_size` from src/download_utils.py. -/
def get_chunk_size (file_size : Int) : Int :=
  chunkFromThresholds file_size THRESHOLDS

/-- Observable outcome of one `save_file_with_progress` run: the parsed file
size, whether the missing-content-length condition was logged, the chunk size
chosen for the read loop, the bytes written to the destination file in order,
and the sequence of `completed=` values passed to
`progress_manager.update_task` (one per written chunk). -/
structure SaveResult where
  fileSize : Int
  loggedMissingLength : Bool
  chunkSize : Int
  fileContent : List Nat
  progressCompleteds : List Rat
  deriving Repr, DecidableEq

/-- The write loop of `save_file_with_progress`: `response.iter_content`
yields chunks (possibly `None`, which the source skips); each non-`None`
chunk is written, the cumulative byte count advanced, and the percentage
`(total_downloaded / file_size) * 100` reported. -/
def saveLoop (fileSize : Int) (content : List Nat) (totalDownloaded : Nat)
    (calls : List Rat) : List (Option (List Nat)) → List Nat × Nat × List Rat
  | [] => (content, totalDownloaded, calls)
  | none :: rest => saveLoop fileSize content totalDownloaded calls rest
  | some chunk :: rest =>
      let totalDownloaded' := totalDownloaded + chunk.length
      let completed : Rat := ((totalDownloaded' : Rat) / (fileSize : Rat)) * 100
      saveLoop fileSize (content ++ chunk) totalDownloaded'
        (calls ++ [completed]) rest

/-- Embedding of `save_file_with_progress` from src/download_utils.py.
`contentLength` is the optional Content-Length header value; absent it
defaults to `-1` and the condition is logged (`logging.exception`).
Note the Python code would raise `ZeroDivisionError` when the header value is
literally `0`; no claim below exercises that case (the rational model yields
`0` there). -/
def save_file_with_progress (contentLength : Option Int)
    (chunks : List (Option (List Nat))) : SaveResult :=
  let file_size := contentLength.getD (-1)
  let logged := file_size == -1
  let chunk_size := get_chunk_size file_size
  let result := saveLoop file_size [] 0 [] chunks
  { fileSize := file_size
    loggedMissingLength := logged
    chunkSize := chunk_size
    fileContent := result.1
    progressCompleteds := result.2.2 }

/-- Cumulative byte counts after each non-skipped chunk, the reference
sequence the spec's progress-callback sentence speaks about. -/
def cumulativeByteCounts (acc : Nat) : List (List Nat) → List Nat
  | [] => []
  | chunk :: rest => (acc + chunk.length) :: cumulativeByteCounts (acc + chunk.length) rest

/-! ## rich.progress task semantics

`ProgressManager` stores its tasks in two `rich.progress.Progress` bars.
The relevant rich behaviour, from rich's `Progress.update` and
`Task.finished`: an update applies `advance` (relative) then `completed`
(absolute) then `visible`; `finished_time` is set as soon as
`completed >= total` and is never cleared afterwards, so `Task.finished`
is a monotone flag.  Display-only data (description strings, colors,
columns) is not modelled: no claim observes it.  rich stores `completed`
and `total` as Python floats; every progress-manager claim below
exercises integer values only (totals 1, 3 and 100, absolute updates
equal to a total, advances of 1), on which float and integer arithmetic
and comparisons agree exactly, so the quantities are modelled as `Int`. -/

/-- One rich progress task: its id, declared total, completed amount,
visibility and (monotone) finished flag. -/
structure RichTask where
  id : Nat
  total : Int
  completed : Int
  visible : Bool
  finished : Bool
  deriving Repr, DecidableEq

/-- rich's `Progress.update` applied to a single task. -/
def richUpdate (t : RichTask) (completed advance : Option Int)
    (visible : Option Bool) : RichTask :=
  let c1 := match advance with
    | some a => t.completed + a
    | none => t.completed
  let c2 := match completed with
    | some c => c
    | none => c1
  { t with
    completed := c2
    visible := visible.getD t.visible
    finished := if t.total ≤ c2 then true else t.finished }

/-- State of a `ProgressManager` (src/src/managers/progress_manager.py):
the overall progress bar's task list (insertion order, tasks can be
removed by id), the item progress bar's task list (never removed, so a
task's id equals its list index, matching rich's growing task-id counter
and the source's `self.task_progress.tasks[task_id]` indexing), the
`ProgressConfig.overall_buffer` deque contents (ids of finished overall
tasks), the next overall task id, and `self.num_tasks`. -/
structure PMState where
  overallTasks : List RichTask
  itemTasks : List RichTask
  overallBuffer : List Nat
  nextOverallId : Nat
  numTasks : Nat
  deriving Repr, DecidableEq

/-- A freshly constructed `ProgressManager`: empty bars, empty buffer. -/
def initPM : PMState :=
  { overallTasks := [], itemTasks := [], overallBuffer := [],
    nextOverallId := 0, numTasks := 0 }

/-- Update the task at a list index (item tasks are indexed by id = index). -/
def updAt (f : RichTask → RichTask) : List RichTask → Nat → List RichTask
  | [], _ => []
  | t :: ts, 0 => f t :: ts
  | t :: ts, n + 1 => t :: updAt f ts n

/-- Update the task with the given id (rich looks tasks up by id). -/
def updById (f : RichTask → RichTask) (tid : Nat) (ts : List RichTask) : List RichTask :=
  ts.map fun t => if t.id = tid then f t else t

/-- rich's `Progress.remove_task`: drop the task with the given id. -/
def removeById (tid : Nat) (ts : List RichTask) : List RichTask :=
  ts.filter fun t => t.id ≠ tid

/-- Append to a `collections.deque` with the given `maxlen`: the oldest
entry is silently dropped when the append would exceed `maxlen`. -/
def dequeAppend {α : Type} (maxlen : Nat) (buf : List α) (x : α) : List α :=
  let b := buf ++ [x]
  if maxlen < b.length then b.drop (b.length - maxlen) else b

/-- Embedding of `ProgressManager.add_overall_task`: record `num_tasks` and
add a fresh task (completed 0) to the overall progress bar. -/
def add_overall_task (s : PMState) (num_tasks : Nat) : PMState :=
  { s with
    numTasks := num_tasks
    overallTasks := s.overallTasks ++
      [{ id := s.nextOverallId, total := (num_tasks : Int), completed := 0,
         visible := true, finished := false }]
    nextOverallId := s.nextOverallId + 1 }

/-- Embedding of `ProgressManager.add_task`: add a fresh item task with the
given total to the task progress bar and return its task id. -/
def add_task (s : PMState) (total : Int := 100) : PMState × Nat :=
  ({ s with itemTasks := s.itemTasks ++
      [{ id := s.itemTasks.length, total := total, completed := 0,
         visible := true, finished := false }] },
   s.itemTasks.length)

/-- The source's read `self.task_progress.tasks[task_id].finished`. -/
def itemFinished (s : PMState) (task_id : Nat) : Bool :=
  match s.itemTasks[task_id]? with
  | some t => t.finished
  | none => false

/-- Embedding of `ProgressManager._cleanup_completed_overall_tasks`: when the
buffer's length equals its `maxlen` (`BUFFER_SIZE`), pop the oldest finished
overall task id and remove that task from the overall progress bar. -/
def cleanup_completed_overall_tasks (s : PMState) : PMState :=
  if s.overallBuffer.length = BUFFER_SIZE then
    match s.overallBuffer with
    | [] => s
    | completed_overall_id :: rest =>
        { s with
          overallBuffer := rest
          overallTasks := removeById completed_overall_id s.overallTasks }
  else s

/-- Embedding of `ProgressManager._update_overall_task`.  The source reads
`self.overall_progress.tasks[-1]` — the most recently added overall task
still present — advances it when the item task is finished, hides the item,
appends the overall task to the buffer when it is (now) finished, and runs
the cleanup.  An empty overall task list would raise `IndexError` in
Python; the embedding returns the state unchanged and no claim reaches
that case. -/
def update_overall_task (s : PMState) (task_id : Nat) : PMState :=
  match s.overallTasks.getLast? with
  | none => s
  | some current_overall_task =>
    let curId := current_overall_task.id
    let s1 :=
      if itemFinished s task_id then
        { s with
          overallTasks :=
            updById (fun t => richUpdate t none (some 1) none) curId s.overallTasks
          itemTasks :=
            updAt (fun t => richUpdate t none none (some false)) s.itemTasks task_id }
      else s
    let s2 :=
      match s1.overallTasks.find? (fun t => t.id == curId) with
      | some cur' =>
          if cur'.finished then
            { s1 with overallBuffer := dequeAppend BUFFER_SIZE s1.overallBuffer curId }
          else s1
      | none => s1
    cleanup_completed_overall_tasks s2

/-- Embedding of `ProgressManager.update_task`: update the item task
(`completed` absolute takes precedence; otherwise `advance` relative;
`visible` always passed, default `true`), then `_update_overall_task`. -/
def update_task (s : PMState) (task_id : Nat) (completed : Option Int)
    (advance : Int := 0) (visible : Bool := true) : PMState :=
  let itemUpd := fun t => richUpdate t completed
    (if completed.isSome then none else some advance) (some visible)
  let s' := { s with itemTasks := updAt itemUpd s.itemTasks task_id }
  update_overall_task s' task_id

/-! ## src/src/managers/log_manager.py -/

/-- State of a `LoggerTable`: the `max_rows` capacity and the circular row
buffer of (timestamp, event, details) rows.  The timestamp string is
produced by the wall clock in the source (`strftime`), so it is a
parameter of `log` here. -/
structure LoggerTable where
  maxRows : Nat
  rowBuffer : List (String × String × String)
  deriving Repr, DecidableEq

/-- Embedding of `LoggerTable.__init__` (default `max_rows = 4`). -/
def LoggerTable.mkTable (max_rows : Nat := 4) : LoggerTable :=
  { maxRows := max_rows, rowBuffer := [] }

/-- Embedding of `LoggerTable.log`: append the row to the deque with
`maxlen = max_rows`. -/
def LoggerTable.log (lt : LoggerTable) (timestamp event details : String) : LoggerTable :=
  { lt with rowBuffer := dequeAppend lt.maxRows lt.rowBuffer (timestamp, event, details) }

/-- Embedding of the row content of `LoggerTable._render_table`: the rows are
added to the rendered table in buffer (insertion) order. -/
def LoggerTable.renderRows (lt : LoggerTable) : List (String × String × String) :=
  lt.rowBuffer

/-! ## src/src/managers/live_manager.py -/

/-- The hours/minutes/seconds triple formatted by
`LiveManager._compute_execution_time`. -/
structure ExecutionTime where
  hours : Nat
  minutes : Nat
  seconds : Nat
  deriving Repr, DecidableEq

/-- Embedding of `LiveManager._compute_execution_time` on a whole number of
elapsed seconds.  `datetime.timedelta(seconds=e).seconds` is the
within-day remainder `e % 86400` for non-negative `e` (whole days go into
the unread `days` attribute). -/
def compute_execution_time (elapsed : Nat) : ExecutionTime :=
  let tdSeconds := elapsed % 86400
  { hours := tdSeconds / 3600
    minutes := (tdSeconds % 3600) / 60
    seconds := tdSeconds % 60 }

/-- Zero-pad to two digits, as Python's 02-width format does (the source's
fields are always below 100, where the two renderings agree). -/
def pad2 (n : Nat) : String :=
  if n < 10 then "0" ++ toString n else toString n

/-- The formatted execution-time string emitted by `LiveManager.stop`. -/
def formatExecutionTime (elapsed : Nat) : String :=
  let t := compute_execution_time elapsed
  pad2 t.hours ++ " hrs " ++ pad2 t.minutes ++ " mins " ++ pad2 t.seconds ++ " secs"

/-! ## Concrete scenarios used by the claims -/

/-- Scenario for the double-update question: one overall task with 3
sub-tasks, one item task with total `t`, then `update_task` with
`completed = t` twice in a row. -/
def doubleUpdateScenario (t : Int) : PMState :=
  let s1 := add_overall_task initPM 3
  let s2 := (add_task s1 t).1
  let s3 := update_task s2 0 (some t)
  update_task s3 0 (some t)

/-- Scenario for the ownership question: overall task A (id 0, 1 sub-task),
then its item task, then a second overall task B (id 1, 1 sub-task) added
after the item, then the item driven to completion. -/
def ownerScenario : PMState :=
  let s1 := add_overall_task initPM 1
  let s2 := (add_task s1 100).1
  let s3 := add_overall_task s2 1
  update_task s3 0 (some 100)

/-- Base state for the three-item scenario: one overall task with 3
sub-tasks and three item tasks (ids 0, 1, 2) each with total 100. -/
def threeItemsBase : PMState :=
  let s1 := add_overall_task initPM 3
  let s2 := (add_task s1 100).1
  let s3 := (add_task s2 100).1
  (add_task s3 100).1

/-- Drive the listed item tasks to completion in order, one
`update_task (completed = total)` call each. -/
def applyFinishes (s : PMState) (l : List Nat) : PMState :=
  l.foldl (fun st i => update_task st i (some 100)) s

/-- Scenario with `n` overall tasks (ids 0..n-1), each declaring one
sub-task whose single item task is driven to completion immediately, so
overall task `k` reaches Finished as the (k+1)-th finish. -/
def finishNScenario (n : Nat) : PMState :=
  (List.range n).foldl
    (fun st k =>
      let st1 := add_overall_task st 1
      let st2 := (add_task st1 100).1
      update_task st2 k (some 100))
    initPM

/-- Six log events appended to a default-capacity (4) LoggerTable. -/
def sixEventScenario : LoggerTable :=
  ((((((LoggerTable.mkTable).log "t1" "e1" "d1").log "t2" "e2" "d2").log
      "t3" "e3" "d3").log "t4" "e4" "d4").log "t5" "e5" "d5").log "t6" "e6" "d6"

/-- Expected outcome of the three-item scenario after finishing the item
tasks in the order given by `l`: the single overall task reaches
completed 3 and Finished, it is pushed onto the buffer once, and it is not
yet Finished after any proper prefix of the three finishes. -/
def threeItemsSpec (l : List Nat) : Prop :=
  (applyFinishes threeItemsBase l).overallTasks =
      [{ id := 0, total := 3, completed := 3, visible := true, finished := true }] ∧
  (applyFinishes threeItemsBase l).overallBuffer = [0] ∧
  ∀ k ∈ [0, 1, 2], (applyFinishes threeItemsBase (l.take k)).overallTasks.map
      (fun t => t.finished) = [false]

instance (l : List Nat) : Decidable (threeItemsSpec l) := by
  unfold threeItemsSpec; infer_instance

/-! ## Helper lemmas -/

/-- Unfolding of the write loop of `save_file_with_progress` over a chunk
list with no `None` entries: the file receives the concatenation of the
chunks, the byte counter adds their total length, and one percentage call
`(cumulative / fileSize) * 100` is emitted per chunk. -/
theorem saveLoop_spec (fs : Int) (chunks : List (List Nat))
    (content : List Nat) (td : Nat) (calls : List Rat) :
    saveLoop fs content td calls (chunks.map some) =
      (content ++ chunks.flatten, td + (chunks.map List.length).sum,
       calls ++ (cumulativeByteCounts td chunks).map
         (fun c => ((c : Rat) / (fs : Rat)) * 100)) := by
  induction chunks generalizing content td calls with
  | nil => simp [saveLoop, cumulativeByteCounts]
  | cons chunk rest ih =>
      simp only [List.map_cons, saveLoop, cumulativeByteCounts, List.flatten_cons,
        List.sum_cons]
      rw [ih]
      simp [List.append_assoc]
      omega

/-! ## Claim theorems -/

/-- C3: for every size strictly below the largest threshold bound,
`get_chunk_size` returns the chunk size paired with the smallest bound
strictly greater than the size (with ascending bounds 1 MB, 10 MB, 50 MB,
100 MB, 250 MB); for sizes at or above the largest bound it returns
the 512 KB fallback; a size exactly equal to a bound falls into the next
bracket, the bound being an exclusive upper limit of the lower bracket. -/
theorem get_chunk_size_brackets (s : Int) :
    (s < 1 * MB → get_chunk_size s = 8 * KB) ∧
    (1 * MB ≤ s → s < 10 * MB → get_chunk_size s = 16 * KB) ∧
    (10 * MB ≤ s → s < 50 * MB → get_chunk_size s = 64 * KB) ∧
    (50 * MB ≤ s → s < 100 * MB → get_chunk_size s = 128 * KB) ∧
    (100 * MB ≤ s → s < 250 * MB → get_chunk_size s = 256 * KB) ∧
    (250 * MB ≤ s → get_chunk_size s = LARGE_FILE_CHUNK_SIZE) := by
  simp only [get_chunk_size, THRESHOLDS, chunkFromThresholds, MB, KB,
    LARGE_FILE_CHUNK_SIZE]
  norm_num
  refine ⟨?_, ?_, ?_, ?_, ?_, ?_⟩ <;> intros <;> split_ifs <;> omega

/-- Witness for C3 at the boundary size of exactly 1 MB, which falls into
the 1 MB – 10 MB bracket (16 KB chunks), and at a size above every bound. -/
theorem get_chunk_size_brackets_witness :
    ((1 * MB ≤ (1 * MB : Int)) ∧ ((1 * MB : Int) < 10 * MB) ∧
      get_chunk_size (1 * MB) = 16 * KB) ∧
    ((250 * MB ≤ (300 * MB : Int)) ∧
      get_chunk_size (300 * MB) = LARGE_FILE_CHUNK_SIZE) :=
  ⟨⟨by decide, by decide,
      (get_chunk_size_brackets (1 * MB)).2.1 (by decide) (by decide)⟩,
   ⟨by decide, (get_chunk_size_brackets (300 * MB)).2.2.2.2.2 (by decide)⟩⟩

/-- C6 counterexample: at the unknown-size sentinel `-1` (and any negative
size), `get_chunk_size` returns the first-bracket chunk size 8 KB, not
the 512 KB large-file fallback the claim asserts. -/
theorem get_chunk_size_negative_ce :
    get_chunk_size (-1) = 8 * KB ∧ (8 * KB : Int) ≠ LARGE_FILE_CHUNK_SIZE := by
  decide

/-- C6 amended: `get_chunk_size` is pure and total (a Lean function on all
of `Int`), and a negative or unknown (`-1`) size satisfies the very first
comparison `file_size < 1 MB`, so it returns the smallest chunk size
8 KB rather than falling through to the fallback. -/
theorem get_chunk_size_negative_amended (s : Int) (h : s < 0) :
    get_chunk_size s = 8 * KB := by
  simp only [get_chunk_size, THRESHOLDS, chunkFromThresholds, MB, KB]
  norm_num
  split_ifs <;> omega

/-- Witness for the amended C6 at the sentinel value `-1`. -/
theorem get_chunk_size_negative_amended_witness :
    ((-1 : Int) < 0) ∧ get_chunk_size (-1) = 8 * KB :=
  ⟨by decide, get_chunk_size_negative_amended (-1) (by decide)⟩

/-- C7 counterexample: with the Content-Length header absent, the missing
total is logged and the download proceeds, but a percentage IS computed:
dividing by the sentinel file size `-1` yields the bogus value `-200`
after a 2-byte chunk, which is passed to the progress update — the claim
asserts no percentage-based progress is computed at all. -/
theorem save_missing_length_ce :
    (save_file_with_progress none [some [1, 2]]).loggedMissingLength = true ∧
    (save_file_with_progress none [some [1, 2]]).fileContent = [1, 2] ∧
    (save_file_with_progress none [some [1, 2]]).progressCompleteds = [(-200 : Rat)] ∧
    (save_file_with_progress none [some [1, 2]]).progressCompleteds ≠ [] := by
  have h : (save_file_with_progress none [some [1, 2]]).progressCompleteds
      = [(-200 : Rat)] := by
    simp [save_file_with_progress, saveLoop]
    norm_num
  refine ⟨rfl, rfl, h, ?_⟩
  rw [h]
  simp

/-- C7 amended: for every download whose response lacks a Content-Length
header, the condition is logged and is not fatal — the file size defaults
to `-1`, the chunk size to 8 KB, and every chunk is still written — but
percentage-based progress is still computed by dividing by the sentinel
`-1`, so each progress update carries the bogus negative value
`-(100 * cumulativeBytes)` instead of no percentage. -/
theorem save_missing_length_amended (chunks : List (List Nat)) :
    (save_file_with_progress none (chunks.map some)).loggedMissingLength = true ∧
    (save_file_with_progress none (chunks.map some)).fileSize = -1 ∧
    (save_file_with_progress none (chunks.map some)).chunkSize = 8 * KB ∧
    (save_file_with_progress none (chunks.map some)).fileContent = chunks.flatten ∧
    (save_file_with_progress none (chunks.map some)).progressCompleteds =
      (cumulativeByteCounts 0 chunks).map (fun c => -((c : Rat) * 100)) := by
  have h := saveLoop_spec (-1) chunks [] 0 []
  have hchunk : get_chunk_size (-1) = 8 * KB := rfl
  refine ⟨rfl, rfl, hchunk, ?_, ?_⟩
  · simp [save_file_with_progress, h]
  · simp only [save_file_with_progress, Option.getD, h]
    simp only [List.nil_append]
    refine List.map_congr_left ?_
    intro c _
    push_cast
    rw [div_neg, div_one]
    ring

/-- C8 counterexample: after the single 2-byte chunk of a 4-byte download,
the progress update carries the percentage `50`, not the new cumulative
byte count `2` (nor the total `4`) that the claim says the callback is
invoked with. -/
theorem save_progress_pair_ce :
    (save_file_with_progress (some 4) [some [1, 2]]).fileContent = [1, 2] ∧
    (save_file_with_progress (some 4) [some [1, 2]]).progressCompleteds = [(50 : Rat)] ∧
    (50 : Rat) ≠ 2 ∧ (50 : Rat) ≠ 4 := by
  refine ⟨rfl, ?_, by norm_num, by norm_num⟩
  simp [save_file_with_progress, saveLoop]
  norm_num

/-- C8 amended: the received chunks are written to the destination file in
order (the file content is their concatenation), and after each chunk the
progress update is invoked with the completion percentage
`(cumulativeBytes / total) * 100` derived from the new cumulative byte
count and the total size — not with the (byte count, total) pair itself. -/
theorem save_progress_calls_amended (n : Int) (chunks : List (List Nat)) :
    (save_file_with_progress (some n) (chunks.map some)).fileContent = chunks.flatten ∧
    (save_file_with_progress (some n) (chunks.map some)).progressCompleteds =
      (cumulativeByteCounts 0 chunks).map (fun c => ((c : Rat) / (n : Rat)) * 100) := by
  have h := saveLoop_spec n chunks [] 0 []
  constructor
  · simp [save_file_with_progress, h]
  · simp [save_file_with_progress, h]

/-- C1 counterexample: with capacity `BUFFER_SIZE = 5`, a run in which six
overall tasks (ids 0–5) reach Finished evicts the two oldest (ids 0 and 1)
and keeps only four tracked — not "exactly the oldest evicted and the other
five remain" as the claim states: cleanup fires as soon as the buffer
reaches its capacity, i.e. already at the fifth finish. -/
theorem eviction_six_ce :
    (finishNScenario 6).overallTasks.map (fun t => t.id) = [2, 3, 4, 5] ∧
    ([2, 3, 4, 5] : List Nat) ≠ [1, 2, 3, 4, 5] := by
  decide

/-- C1 amended: eviction is FIFO by finish order, but it starts at the
finish that makes the buffer reach its capacity 5: after 4 finishes
nothing is evicted; the 5th finish evicts the oldest (id 0); the 6th
finish evicts the next oldest (id 1); so after n ≥ 5 finishes only the 4
most recent Finished overall tasks remain tracked. -/
theorem eviction_capacity_fifo_amended :
    (finishNScenario 4).overallTasks.map (fun t => t.id) = [0, 1, 2, 3] ∧
    (finishNScenario 5).overallTasks.map (fun t => t.id) = [1, 2, 3, 4] ∧
    (finishNScenario 6).overallTasks.map (fun t => t.id) = [2, 3, 4, 5] ∧
    (finishNScenario 5).overallBuffer = [1, 2, 3, 4] ∧
    (finishNScenario 6).overallBuffer = [2, 3, 4, 5] ∧
    (finishNScenario 6).overallTasks.map (fun t => t.finished) =
      [true, true, true, true] := by
  decide

/-- C2 counterexample: with an item task of total 100 under an overall task
of 3 sub-tasks, calling `update_task (completed = 100)` twice in a row
leaves the overall task's completed-count at 2, not advanced by exactly
one from its prior value 0 as the claim states: the source advances the
overall count whenever the item IS finished, not only on the transition. -/
theorem update_twice_double_count_ce :
    (doubleUpdateScenario 100).overallTasks.map (fun t => t.completed) = [2] ∧
    ((2 : Int) ≠ 0 + 1) := by
  decide

/-- C2 amended: for every declared item total `t`, two consecutive
`update_task (completed = t)` calls advance the owning overall task's
completed-count by exactly two — one advance per call in which the item
task is in the finished state. -/
theorem update_twice_advances_twice (t : Int) :
    (doubleUpdateScenario t).overallTasks.map (fun u => u.completed) = [2] := by
  simp [doubleUpdateScenario, add_overall_task, add_task, initPM, update_task,
    update_overall_task, itemFinished, updAt, updById, removeById, richUpdate,
    cleanup_completed_overall_tasks, dequeAppend, BUFFER_SIZE]

/-- C4: one overall task declaring 3 sub-tasks, three item tasks each driven
to completion by a single `update_task (completed = total)` call, in any
of the six possible finish orders (all enumerated): the overall task ends with
completed-count 3 and the Finished flag set, it is pushed onto the
finished-task buffer exactly once, and it is not Finished after only 0, 1
or 2 of the three finishes. -/
theorem overall_three_items_any_order :
    ∀ l ∈ ([[0, 1, 2], [0, 2, 1], [1, 0, 2], [1, 2, 0], [2, 0, 1], [2, 1, 0]] :
        List (List Nat)), threeItemsSpec l := by
  decide

/-- Witness for C4 at the concrete finish order 2, 0, 1. -/
theorem overall_three_items_any_order_witness :
    [2, 0, 1] ∈ ([[0, 1, 2], [0, 2, 1], [1, 0, 2], [1, 2, 0], [2, 0, 1], [2, 1, 0]] :
        List (List Nat)) ∧ threeItemsSpec [2, 0, 1] :=
  ⟨by decide, overall_three_items_any_order [2, 0, 1] (by decide)⟩

/-- C5 counterexample: overall task A (id 0) owns the only item task, then
overall task B (id 1) is added, then the item finishes.  The source
advances `self.overall_progress.tasks[-1]` — task B — so the owner A's
completed-count stays 0 instead of advancing by one as the claim states. -/
theorem owner_advance_ce :
    (ownerScenario.overallTasks.find? (fun t => t.id == 0)).map
      (fun t => t.completed) = some 0 ∧
    ¬ (0 : Int) = 0 + 1 := by
  decide

/-- C5 amended: when an item task finishes, the advance goes to the most
recently added overall task, not to the one that owned the item: in the
A-then-item-then-B scenario, B's completed-count becomes 1 (and B is
flagged Finished and buffered) while owner A stays at 0; the finished
item is still hidden. -/
theorem latest_overall_advances_amended :
    ownerScenario.overallTasks.map (fun t => (t.id, t.completed, t.finished)) =
      [(0, (0 : Int), false), (1, (1 : Int), true)] ∧
    ownerScenario.itemTasks.map (fun t => (t.visible, t.finished)) =
      [(false, true)] ∧
    ownerScenario.overallBuffer = [1] := by
  decide

/-- C9: the log buffer is a fixed-capacity FIFO ring — every `log` call
preserves the capacity bound `max_rows`, and with the default capacity 4,
logging six events leaves exactly events 3–6 in the buffer, rendered in
insertion order. -/
theorem log_buffer_ring (lt : LoggerTable) (ts e d : String) :
    (lt.log ts e d).rowBuffer.length ≤ lt.maxRows ∧
    sixEventScenario.maxRows = 4 ∧
    sixEventScenario.renderRows =
      [("t3", "e3", "d3"), ("t4", "e4", "d4"), ("t5", "e5", "d5"),
       ("t6", "e6", "d6")] := by
  refine ⟨?_, rfl, rfl⟩
  simp only [LoggerTable.log, dequeAppend]
  split_ifs with h1 <;>
    simp only [List.length_drop, List.length_append, List.length_cons,
      List.length_nil] at h1 ⊢ <;>
    omega

/-- C10: for every session whose elapsed whole seconds reach 24 hours
(86400 s) or more, the elapsed-time report at stop uses only the elapsed
seconds modulo 86400 — whole days are dropped because the source reads
`timedelta.seconds` — the reported hours field is strictly below 24, and
an elapsed time of 25 hours (90000 s) is formatted as
"01 hrs 00 mins 00 secs". -/
theorem execution_time_drops_days (e : Nat) (h : 86400 ≤ e) :
    compute_execution_time e = compute_execution_time (e % 86400) ∧
    (compute_execution_time e).hours < 24 ∧
    formatExecutionTime e = formatExecutionTime (e % 86400) ∧
    formatExecutionTime 90000 = "01 hrs 00 mins 00 secs" := by
  have h1 : compute_execution_time e = compute_execution_time (e % 86400) := by
    unfold compute_execution_time
    simp only [ExecutionTime.mk.injEq]
    omega
  refine ⟨h1, ?_, ?_, rfl⟩
  · show e % 86400 / 3600 < 24
    omega
  · unfold formatExecutionTime
    rw [h1]

/-- Witness for C10 at an elapsed time of 25 hours (90000 seconds). -/
theorem execution_time_drops_days_witness :
    86400 ≤ 90000 ∧
    (compute_execution_time 90000 = compute_execution_time (90000 % 86400) ∧
     (compute_execution_time 90000).hours < 24 ∧
     formatExecutionTime 90000 = formatExecutionTime (90000 % 86400) ∧
     formatExecutionTime 90000 = "01 hrs 00 mins 00 secs") :=
  ⟨by decide, execution_time_drops_days 90000 (by decide)⟩

end GoFile
